import Mathlib

/-!
# Verification of the chunking / indexing / retrieval core

Shallow embedding of the core pipeline of the Climate-RAG platform:

* `DocumentProcessor.chunk_text`  (backend/services/ingestion.py)
* `VectorStore.create_index`, `add_documents`, `search`, `save_index`,
  `load_index`                    (backend/services/vectorstore.py)
* `QAService.answer_query`        (backend/services/qa_service.py)

Modelling conventions:

* Python floats are modelled as real numbers (`ℝ`); Python ints as `ℤ`
  (or `ℕ` for values that are counts by construction).
* The sentence-transformer embedding model is an external deterministic
  function; it is a parameter `enc : String → List ℝ` of every operation
  that calls `self.model.encode`.
* `faiss.IndexFlatIP` is external library code; its documented behaviour
  is embedded directly: exact inner-product search returning the top
  `min(k, ntotal)` entries by descending score (ties by lower id), with
  missing result slots padded by id `-1` and score `-FLT_MAX`, and
  `faiss.normalize_L2` dividing each vector by its L2 norm, leaving
  zero-norm vectors unchanged (`fvec_renorm_L2` only rescales when the
  squared norm is positive).  `Index::search` rejects `k <= 0`
  (`FAISS_THROW_IF_NOT(k > 0)`), modelled as an `invalidArgument` error.
* The pickle / faiss on-disk serialization is modelled by a `Disk` that
  holds the serialized values verbatim; a file is `absent`, `corrupt`
  (deserialization raises), or `stored v`.
* Only the fields of the chunk/document dictionaries that the core reads
  are carried (`text`, `metadata.filename`, `metadata.page_number`,
  plus the source metadata copied into every chunk).
-/

namespace ClimateRAG

/-- A document/chunk record as stored in `VectorStore.documents`:
the (cleaned) text plus the metadata fields the retrieval path reads. -/
structure Doc where
  text : String
  filename : String
  pageNumber : Option Int := none
deriving DecidableEq

/-- An embedding vector (a Python list / numpy row of floats). -/
abbrev Vec := List ℝ

/-- Inner product of two vectors (numpy dot on rows of equal length). -/
def dot (u v : Vec) : ℝ :=
  (List.zipWith (· * ·) u v).sum

/-- Squared L2 norm of a vector. -/
def normSq (v : Vec) : ℝ :=
  (v.map (fun x => x * x)).sum

/-- `faiss.normalize_L2`: divide a vector by its L2 norm; faiss's
`fvec_renorm_L2` only rescales when the squared norm is positive, so a
zero-norm vector is left unchanged. -/
noncomputable def normalizeL2 (v : Vec) : Vec :=
  if 0 < normSq v then v.map (fun x => x / Real.sqrt (normSq v)) else v

/-- The largest finite IEEE single-precision value, `FLT_MAX`
(= (2 − 2⁻²³)·2¹²⁷ = 2¹²⁸ − 2¹⁰⁴): faiss initializes the result heap of
an inner-product search with score `-FLT_MAX` and id `-1`. -/
def fltMax : ℝ := 2 ^ 128 - 2 ^ 104

/-- Result ordering of faiss flat inner-product search: higher score
first, ties broken by lower insertion id. -/
def resLE (a b : ℕ × ℝ) : Prop :=
  b.2 < a.2 ∨ (a.2 = b.2 ∧ a.1 ≤ b.1)

noncomputable instance : DecidableRel resLE :=
  fun a b => inferInstanceAs (Decidable (b.2 < a.2 ∨ (a.2 = b.2 ∧ a.1 ≤ b.1)))

/-- `faiss.IndexFlatIP.search` on one query vector: score every stored
row by inner product, order by descending score (ties by lower id),
return the first `k` slots; when `k > ntotal` the remaining slots are
padded with id `-1` and score `-FLT_MAX`. -/
noncomputable def faissSearch (vecs : List Vec) (q : Vec) (k : ℕ) : List (ℤ × ℝ) :=
  let scored := vecs.enum.map (fun p => (p.1, dot q p.2))
  let sorted := List.insertionSort resLE scored
  (sorted.take k).map (fun p => ((p.1 : ℤ), p.2))
    ++ List.replicate (k - vecs.length) (-1, -fltMax)

/-- Python list indexing `l[i]`: negative indices count from the end;
out-of-range access raises (modelled as `none`). -/
def pyGet {α : Type} (l : List α) (i : ℤ) : Option α :=
  let j := if i < 0 then (l.length : ℤ) + i else i
  if 0 ≤ j then l.get? j.toNat else none

/-- In-memory state of a `VectorStore`: `self.index` (the faiss index,
`None` until created, otherwise the list of stored rows in insertion
order) and `self.documents`. -/
structure Store where
  index : Option (List Vec)
  documents : List Doc

/-- A serialized artifact on disk: missing, present but failing to
deserialize, or present with a value. -/
inductive FileState (α : Type) where
  | absent
  | corrupt
  | stored (a : α)

/-- `os.path.exists` on a file slot. -/
def FileState.check {α : Type} : FileState α → Bool
  | .absent => false
  | _ => true

/-- The two co-located snapshot artifacts:
`faiss_index.bin` and `documents.pkl`. -/
structure Disk where
  indexFile : FileState (List Vec)
  docsFile : FileState (List Doc)

/-- A `VectorStore` together with the snapshot directory it persists to. -/
structure Sys where
  store : Store
  disk : Disk

/-- `VectorStore.save_index`: writes the faiss index (only when it is
not `None` — otherwise the index file is left as it was) and always
pickles `self.documents`. -/
def save_index (s : Sys) : Sys :=
  { s with disk :=
    { indexFile := match s.store.index with
        | some vs => .stored vs
        | none => s.disk.indexFile
      docsFile := .stored s.store.documents } }

/-- `VectorStore.load_index`: when both snapshot files exist, read the
index then the documents inside a `try`; any deserialization failure is
caught and resets the store to `index = None`, `documents = []`.  When
either file is missing, the in-memory state is left untouched. -/
def load_index (s : Sys) : Sys :=
  if s.disk.indexFile.check && s.disk.docsFile.check then
    match s.disk.indexFile, s.disk.docsFile with
    | .stored vs, .stored ds => { s with store := ⟨some vs, ds⟩ }
    | _, _ => { s with store := ⟨none, []⟩ }
  else s

/-- `VectorStore.__init__` on a fresh instance: `index = None`,
`documents = []`, then `load_index()`. -/
def storeInit (d : Disk) : Sys :=
  load_index ⟨⟨none, []⟩, d⟩

/-- `VectorStore.create_index`: on a non-empty document list, encode
every `doc['text']`, L2-normalize the embeddings, put them into a fresh
`IndexFlatIP`, replace `self.documents`, and save.  (The faiss dimension
check is elided: the encoder has a fixed output dimension.) -/
noncomputable def create_index (enc : String → Vec) (s : Sys) (docs : List Doc) : Sys :=
  if docs = [] then s
  else
    save_index
      { s with store :=
        ⟨some ((docs.map (fun d => enc d.text)).map normalizeL2), docs⟩ }

/-- `VectorStore.add_documents`: on a non-empty batch, encode the texts;
if no index exists yet, delegate to `create_index` (which re-encodes the
same texts, with the same result); otherwise normalize and append the
new rows to the index, extend `self.documents`, and save. -/
noncomputable def add_documents (enc : String → Vec) (s : Sys) (docs : List Doc) : Sys :=
  if docs = [] then s
  else
    match s.store.index with
    | none => create_index enc s docs
    | some vs =>
        save_index
          { s with store :=
            ⟨some (vs ++ (docs.map (fun d => enc d.text)).map normalizeL2),
             s.store.documents ++ docs⟩ }

/-- Errors surfaced by the search path: faiss `Index::search` rejects a
non-positive `k` (`FAISS_THROW_IF_NOT(k > 0)`), which propagates out of
`VectorStore.search` as an exception. -/
inductive SearchErr where
  | invalidArgument
deriving DecidableEq

/-- `VectorStore.search`: returns `[]` when the index is `None` or the
document list is empty; otherwise encodes and normalizes the query,
runs the faiss search, and keeps each returned `(score, idx)` pair with
`idx < len(self.documents)` — note Python indexing, so the faiss padding
id `-1` passes this guard and selects `documents[-1]`, the last stored
document. -/
noncomputable def search (enc : String → Vec) (st : Store) (q : String) (k : ℤ) :
    Except SearchErr (List (Doc × ℝ)) :=
  match st.index with
  | none => .ok []
  | some vs =>
    if st.documents.length = 0 then .ok []
    else if k ≤ 0 then .error .invalidArgument
    else
      let qv := normalizeL2 (enc q)
      let pairs := faissSearch vs qv k.toNat
      -- per the faiss contract every returned id is -1 or in [0, ntotal),
      -- so under the guard `pyGet` always succeeds when documents ≠ []
      .ok (pairs.filterMap (fun p =>
        if p.1 < (st.documents.length : ℤ) then
          (pyGet st.documents p.1).map (fun d => (d, p.2))
        else none))

/-- One retrieved source in the API response (`DocumentSource`):
`filename`, `page_number`, `relevance_score`. -/
structure DocumentSource where
  filename : String
  pageNumber : Option Int
  relevanceScore : ℝ

/-- The parts of `QueryResponse` produced by the retrieval core:
`sources` and `confidence_score`.  The `answer` string is produced by
the answer-synthesis collaborator (OpenAI / extractive fallback) and is
outside the verified core. -/
structure QueryResponse where
  sources : List DocumentSource
  confidenceScore : ℝ

/-- `QAService.answer_query`: search with `k = max_results`; on an empty
result list return no sources and confidence `0.0`; otherwise list every
result as a source and set
`confidence_score = sum(scores[:3]) / min(3, len(scores))`. -/
noncomputable def answer_query (enc : String → Vec) (st : Store) (q : String)
    (maxResults : ℤ) : Except SearchErr QueryResponse :=
  match search enc st q maxResults with
  | .error e => .error e
  | .ok [] => .ok ⟨[], 0⟩
  | .ok (r :: rs) =>
      let results := r :: rs
      let scores := results.map Prod.snd
      .ok ⟨results.map (fun p => ⟨p.1.filename, p.1.pageNumber, p.2⟩),
           (scores.take 3).sum / (min 3 scores.length : ℕ)⟩

/-- Error raised by `DocumentProcessor.chunk_text`: Python's
`range(start, stop, step)` raises `ValueError` when `step == 0`. -/
inductive ChunkErr where
  | valueError
deriving DecidableEq

/-- Helper for `pySplit`: scan the characters, accumulating the current
(reversed) word; whitespace closes the current word, empty pieces are
discarded. -/
def pySplitAux : List Char → List Char → List String
  | [], acc => if acc.isEmpty then [] else [String.mk acc.reverse]
  | c :: cs, acc =>
      if c.isWhitespace then
        if acc.isEmpty then pySplitAux cs []
        else String.mk acc.reverse :: pySplitAux cs []
      else pySplitAux cs (c :: acc)

/-- Python `str.split()` with no argument: split on runs of whitespace,
discarding empty pieces. -/
def pySplit (s : String) : List String :=
  pySplitAux s.toList []

/-- A chunk dictionary as built by `chunk_text`: the joined window text
plus the copied source metadata and the `chunk_id` / `start_word` /
`end_word` fields added per chunk. -/
structure Chunk where
  text : String
  chunkId : ℕ
  startWord : ℕ
  endWord : ℕ
  meta : List (String × String)
deriving DecidableEq

/-- `DocumentProcessor.chunk_text`: split the text into words, then for
`i in range(0, len(words), chunk_size - chunk_overlap)` emit the window
`words[i : i + chunk_size]`.  A zero step makes `range` raise
`ValueError`; a negative step (overlap > chunk_size) makes
`range(0, len(words), step)` empty, so no chunk is produced and no error
is raised. -/
def chunk_text (chunkSize overlap : ℕ) (text : String)
    (metadata : List (String × String)) : Except ChunkErr (List Chunk) :=
  let words := pySplit text
  let step : ℤ := (chunkSize : ℤ) - (overlap : ℤ)
  if step = 0 then .error .valueError
  else if step < 0 then .ok []
  else
    let st := step.toNat
    let n := words.length
    let idxs := (List.range ((n + st - 1) / st)).map (· * st)
    .ok (idxs.enum.map (fun p =>
      { text := " ".intercalate ((words.drop p.2).take chunkSize)
        chunkId := p.1
        startWord := p.2
        endWord := min (p.2 + chunkSize) n
        meta := metadata }))

/-! ## Invariants and concrete instances used by the theorems -/

/-- Positional alignment of a store: with no index the document list is
empty; with an index, row `i` is exactly the normalized embedding of
document `i`'s text. -/
def aligned (enc : String → Vec) (st : Store) : Prop :=
  match st.index with
  | none => st.documents = []
  | some vs => vs = st.documents.map (fun d => normalizeL2 (enc d.text))

/-- Alignment of a snapshot: whenever both artifacts deserialize, the
stored rows are the normalized embeddings of the stored documents.
Snapshots written by `save_index` from an aligned populated store have
this property by construction. -/
def diskAligned (enc : String → Vec) (d : Disk) : Prop :=
  ∀ vs ds, d.indexFile = .stored vs → d.docsFile = .stored ds →
    vs = ds.map (fun x => normalizeL2 (enc x.text))

/-- An embedding model that sends every text to the zero vector
(dimension 2 for concreteness). -/
noncomputable def encZero : String → Vec := fun _ => [0, 0]

/-- An embedding model that sends every text to the unit vector `[1,0]`. -/
noncomputable def encUnit : String → Vec := fun _ => [1, 0]

/-- A concrete document. -/
def docA : Doc := ⟨"alpha", "a.txt", none⟩

/-- A concrete document whose embedding under `encZero` is zero-norm. -/
def docZ : Doc := ⟨"zero", "z.txt", none⟩

/-- A fresh system: empty store, no snapshot files. -/
def sysEmpty : Sys := ⟨⟨none, []⟩, ⟨.absent, .absent⟩⟩

/-- A populated store holding one document whose stored row is the
(already unit-norm) embedding `[1, 0]` of its text under `encUnit`. -/
def oneStore : Store := ⟨some [[1, 0]], [docA]⟩

/-- `oneStore` together with the snapshot `save_index` writes for it. -/
def oneSys : Sys := ⟨oneStore, ⟨.stored [[1, 0]], .stored [docA]⟩⟩

end ClimateRAG

deriving instance DecidableEq for Except

namespace ClimateRAG

/-! ## Theorems -/

/-- Claim C4, counterexample: with `overlap = 3 > chunk_size = 2` and a
non-empty text, `chunk_text` does not fail with any error — it silently
returns the empty chunk list (the `range` step is negative, so the loop
never runs). -/
theorem c4_counterexample : chunk_text 2 3 "a b c" [] = .ok [] := by decide

/-- Claim C4 (amended): when `overlap = chunk_size` the call fails,
with Python's `ValueError` from a zero `range` step (not a dedicated
`InvalidConfiguration` error); when `overlap > chunk_size` the call
silently succeeds with no chunks instead of failing. -/
theorem c4_overlap_ge_size (chunkSize overlap : ℕ) (text : String)
    (metadata : List (String × String)) :
    (overlap = chunkSize →
      chunk_text chunkSize overlap text metadata = .error .valueError) ∧
    (chunkSize < overlap →
      chunk_text chunkSize overlap text metadata = .ok []) := by
  constructor
  · intro h
    have h0 : (chunkSize : ℤ) - (overlap : ℤ) = 0 := by omega
    simp [chunk_text, h0]
  · intro h
    have h0 : ¬((chunkSize : ℤ) - (overlap : ℤ) = 0) := by omega
    have h1 : (chunkSize : ℤ) - (overlap : ℤ) < 0 := by omega
    simp [chunk_text, h0, h1]

/-- Claim C4, witness for the amended theorem at concrete inputs. -/
theorem c4_overlap_ge_size_witness :
    chunk_text 2 2 "x y z" [] = .error .valueError ∧
    chunk_text 2 3 "x y z" [] = .ok [] :=
  ⟨(c4_overlap_ge_size 2 2 "x y z" []).1 rfl,
   (c4_overlap_ge_size 2 3 "x y z" []).2 (by decide)⟩

/-- Claim C10: with `overlap > chunk_size` and a non-empty text,
`chunk_text` returns the empty chunk list without raising: the `range`
step `chunk_size - overlap` is negative, so the loop body never
executes and the whole input is silently dropped. -/
theorem c10_negative_step_drops_input (chunkSize overlap : ℕ) (text : String)
    (metadata : List (String × String)) (hov : chunkSize < overlap)
    (_hne : text ≠ "") :
    chunk_text chunkSize overlap text metadata = .ok [] := by
  have h0 : ¬((chunkSize : ℤ) - (overlap : ℤ) = 0) := by omega
  have h1 : (chunkSize : ℤ) - (overlap : ℤ) < 0 := by omega
  simp [chunk_text, h0, h1]

/-- Claim C10, witness at concrete inputs. -/
theorem c10_negative_step_drops_input_witness :
    chunk_text 4 9 "some words here" [] = .ok [] :=
  c10_negative_step_drops_input 4 9 "some words here" [] (by decide) (by decide)

/-- Claim C7, counterexample: with the valid configuration
`chunk_size = 3, overlap = 2` and a 2-token text (token count ≤
chunk_size), `chunk_text` returns two chunks, not exactly one — the
window restarts at `chunk_size - overlap = 1` which is still inside the
text, producing a trailing runt chunk. -/
theorem c7_counterexample :
    2 < 3 ∧ (pySplit "a b").length ≤ 3 ∧
    chunk_text 3 2 "a b" [] =
      .ok [⟨"a b", 0, 0, 2, []⟩, ⟨"b", 1, 1, 2, []⟩] := by decide

/-- Claim C7 (amended): under a valid configuration
(`overlap < chunk_size`), empty input yields the empty chunk sequence,
and a text whose token count is at most `chunk_size - overlap` (not
merely at most `chunk_size`) yields exactly one chunk whose text joins
all tokens. -/
theorem c7_single_chunk (chunkSize overlap : ℕ) (text : String)
    (metadata : List (String × String)) (hvalid : overlap < chunkSize) :
    (pySplit text = [] →
      chunk_text chunkSize overlap text metadata = .ok []) ∧
    (pySplit text ≠ [] → (pySplit text).length ≤ chunkSize - overlap →
      chunk_text chunkSize overlap text metadata =
        .ok [⟨" ".intercalate (pySplit text), 0, 0, (pySplit text).length,
             metadata⟩]) := by
  have h0 : ¬((chunkSize : ℤ) - (overlap : ℤ) = 0) := by omega
  have h1 : ¬((chunkSize : ℤ) - (overlap : ℤ) < 0) := by omega
  have h2 : ((chunkSize : ℤ) - (overlap : ℤ)).toNat = chunkSize - overlap := by
    omega
  constructor
  · intro hw
    have h3 : (chunkSize - overlap - 1) / (chunkSize - overlap) = 0 :=
      Nat.div_eq_of_lt (by omega)
    simp [chunk_text, h0, h1, h2, hw, h3]
  · intro hw hlen
    have hpos : 0 < (pySplit text).length := List.length_pos.mpr hw
    have h3 : ((pySplit text).length + (chunkSize - overlap) - 1) /
        (chunkSize - overlap) = 1 :=
      Nat.div_eq_of_lt_le (by omega) (by omega)
    have h4 : (pySplit text).length ≤ chunkSize := by omega
    have hr : List.range 1 = [0] := rfl
    simp [chunk_text, h0, h1, h2, h3, hr,
      List.take_of_length_le h4, min_eq_right h4]

/-- Claim C7, witness for the amended theorem at concrete inputs. -/
theorem c7_single_chunk_witness :
    chunk_text 5 2 "" [] = .ok [] ∧
    chunk_text 5 2 "a b c" [] = .ok [⟨"a b c", 0, 0, 3, []⟩] :=
  ⟨(c7_single_chunk 5 2 "" [] (by decide)).1 (by decide),
   by
    have h := (c7_single_chunk 5 2 "a b c" [] (by decide)).2
      (by decide) (by decide)
    simpa using h⟩

/-- Claim C1 (code bug exhibited): on a store holding a single entry,
`search` with `k = 2` returns two results, exceeding
`min(k, entry_count) = 1`: faiss pads the missing slot with id `-1` and
score `-FLT_MAX`, the guard `idx < len(self.documents)` accepts `-1`,
and Python's negative indexing turns it into a duplicate of the last
stored document. -/
theorem c1_search_overcount :
    oneStore.documents.length = 1 ∧
    search encUnit oneStore "query" 2 = .ok [(docA, 1), (docA, -fltMax)] := by
  refine ⟨rfl, ?_⟩
  norm_num [search, oneStore, faissSearch, normalizeL2, normSq, dot, encUnit,
    pyGet, List.insertionSort, List.orderedInsert, List.enum, List.enumFrom,
    Real.sqrt_one, List.filterMap, docA]

/-- Claim C2: every vector-store operation preserves positional
alignment of the document list with the vector rows (row `i` is the
normalized embedding of document `i`), given that any snapshot read back
is itself aligned — which is what `save_index` writes. -/
theorem c2_alignment_preserved (enc : String → Vec) (s : Sys)
    (batch : List Doc) (hs : aligned enc s.store)
    (hd : diskAligned enc s.disk) :
    aligned enc (create_index enc s batch).store ∧
    aligned enc (add_documents enc s batch).store ∧
    aligned enc (save_index s).store ∧
    aligned enc (load_index s).store := by
  have hcreate : aligned enc (create_index enc s batch).store := by
    unfold create_index
    split
    · exact hs
    · simp [aligned, save_index, List.map_map]
  refine ⟨hcreate, ?_, hs, ?_⟩
  · unfold add_documents
    split
    · exact hs
    · split
      · exact hcreate
      · rename_i vs heq
        have hs2 : vs = s.store.documents.map
            (fun d => normalizeL2 (enc d.text)) := by
          unfold aligned at hs
          rw [heq] at hs
          exact hs
        simp [aligned, save_index, hs2, List.map_map]
  · unfold load_index
    split
    · split
      · rename_i vs ds heq1 heq2
        simpa [aligned] using hd vs ds heq1 heq2
      · simp [aligned]
    · exact hs

/-- Claim C2, witness at concrete inputs. -/
theorem c2_alignment_preserved_witness :
    aligned encZero sysEmpty.store ∧ diskAligned encZero sysEmpty.disk ∧
    (aligned encZero (create_index encZero sysEmpty [docZ]).store ∧
     aligned encZero (add_documents encZero sysEmpty [docZ]).store ∧
     aligned encZero (save_index sysEmpty).store ∧
     aligned encZero (load_index sysEmpty).store) := by
  have h1 : aligned encZero sysEmpty.store := rfl
  have h2 : diskAligned encZero sysEmpty.disk := by
    intro vs ds hv _
    exact absurd hv (by simp [sysEmpty])
  exact ⟨h1, h2, c2_alignment_preserved encZero sysEmpty [docZ] h1 h2⟩

/-- Claim C3, counterexample: a batch whose (zero-text) document embeds
to the zero vector is inserted without any error — there is no
zero-norm check anywhere on the insertion path, `normalize_L2` leaves
the zero vector unchanged, and both the vector row and the document are
appended. -/
theorem c3_counterexample :
    normSq (encZero docZ.text) = 0 ∧
    (add_documents encZero sysEmpty [docZ]).store.index = some [[0, 0]] ∧
    (add_documents encZero sysEmpty [docZ]).store.documents = [docZ] := by
  refine ⟨by norm_num [normSq, encZero], ?_, ?_⟩ <;>
    norm_num [add_documents, create_index, save_index, sysEmpty, encZero,
      normalizeL2, normSq]

/-- Claim C3 (amended): a batch containing a zero-norm vector is not
rejected: `faiss.normalize_L2` leaves a zero-norm vector unchanged, and
`add_documents` appends the whole batch to both the vector rows and the
document list; no `DegenerateVector` (or any other) error exists on this
path.  Partial insertion still never happens — the batch is appended in
full. -/
theorem c3_zero_norm_batch_inserted (enc : String → Vec) (s : Sys)
    (vs : List Vec) (batch : List Doc) (v : Vec)
    (hidx : s.store.index = some vs) (hne : batch ≠ [])
    (hv : normSq v = 0) :
    normalizeL2 v = v ∧
    (add_documents enc s batch).store.documents =
      s.store.documents ++ batch ∧
    (add_documents enc s batch).store.index =
      some (vs ++ batch.map (fun d => normalizeL2 (enc d.text))) := by
  refine ⟨by simp [normalizeL2, hv], ?_, ?_⟩ <;>
    simp [add_documents, hne, hidx, save_index, List.map_map]

/-- Claim C3, witness for the amended theorem at concrete inputs. -/
theorem c3_zero_norm_batch_inserted_witness :
    normalizeL2 [0, 0] = [0, 0] ∧
    (add_documents encZero oneSys [docZ]).store.documents =
      oneSys.store.documents ++ [docZ] ∧
    (add_documents encZero oneSys [docZ]).store.index =
      some ([[1, 0]] ++ [docZ].map (fun d => normalizeL2 (encZero d.text))) :=
  c3_zero_norm_batch_inserted encZero oneSys [[1, 0]] [docZ] [0, 0] rfl
    (by simp) (by norm_num [normSq])

/-- Claim C5: flushing a populated store and loading the snapshot into a
fresh instance reproduces a store whose `search` results are identical
— same order, same scores — for every query and every `k`. -/
theorem c5_roundtrip (enc : String → Vec) (s : Sys) (vs : List Vec)
    (h : s.store.index = some vs) (q : String) (k : ℤ) :
    search enc (storeInit (save_index s).disk).store q k =
      search enc s.store q k := by
  have hst : (storeInit (save_index s).disk).store = s.store := by
    obtain ⟨⟨idx, docs⟩, disk⟩ := s
    simp only at h
    subst h
    simp [storeInit, load_index, save_index, FileState.check]
  rw [hst]

/-- Claim C5, witness at concrete inputs. -/
theorem c5_roundtrip_witness :
    search encUnit (storeInit (save_index oneSys).disk).store "q" 3 =
      search encUnit oneSys.store "q" 3 :=
  c5_roundtrip encUnit oneSys [[1, 0]] rfl "q" 3

/-- Claim C6: whenever `search` returns a result list, `answer_query`
reports confidence `sum(scores[:3]) / min(3, len(scores))` — the mean of
the first (= highest-scoring) `min(3, len(results))` scores — over the
results listed as sources, and an empty result list yields an empty
source list with confidence exactly `0`, not a division error. -/
theorem c6_confidence_mean (enc : String → Vec) (st : Store) (q : String)
    (k : ℤ) (res : List (Doc × ℝ)) (h : search enc st q k = .ok res) :
    (res = [] → answer_query enc st q k = .ok ⟨[], 0⟩) ∧
    (res ≠ [] → answer_query enc st q k =
      .ok ⟨res.map (fun p => ⟨p.1.filename, p.1.pageNumber, p.2⟩),
           ((res.map Prod.snd).take 3).sum / (min 3 res.length : ℕ)⟩) := by
  unfold answer_query
  rw [h]
  cases res with
  | nil => simp
  | cons r rs => simp

/-- Claim C6, witness: both the empty-result branch and a populated
branch, at concrete inputs. -/
theorem c6_confidence_mean_witness :
    answer_query encUnit ⟨none, []⟩ "q" 5 = .ok ⟨[], 0⟩ ∧
    answer_query encUnit oneStore "q" 1 = .ok ⟨[⟨"a.txt", none, 1⟩], 1⟩ := by
  refine ⟨(c6_confidence_mean encUnit ⟨none, []⟩ "q" 5 [] rfl).1 rfl, ?_⟩
  have h1 : search encUnit oneStore "q" 1 = .ok [(docA, 1)] := by
    norm_num [search, oneStore, faissSearch, normalizeL2, normSq, dot, encUnit,
      pyGet, List.insertionSort, List.orderedInsert, List.enum, List.enumFrom,
      Real.sqrt_one, List.filterMap]
  have h2 := (c6_confidence_mean encUnit oneStore "q" 1 [(docA, 1)] h1).2
    (by simp)
  simpa [docA] using h2

/-- Claim C8: a fresh `VectorStore` started against a snapshot with
either artifact missing, or any artifact that fails to deserialize,
initializes an empty index (`index = None`, `documents = []`) without
failing and without partial population. -/
theorem c8_missing_or_corrupt_snapshot (d : Disk)
    (h : d.indexFile.check = false ∨ d.docsFile.check = false ∨
         d.indexFile = .corrupt ∨ d.docsFile = .corrupt) :
    (storeInit d).store = ⟨none, []⟩ := by
  obtain ⟨fi, fd⟩ := d
  cases fi <;> cases fd <;>
    simp_all [storeInit, load_index, FileState.check]

/-- Claim C8, witness at a concrete disk state. -/
theorem c8_missing_or_corrupt_snapshot_witness :
    (storeInit ⟨.absent, .corrupt⟩).store = ⟨none, []⟩ :=
  c8_missing_or_corrupt_snapshot ⟨.absent, .corrupt⟩ (Or.inl rfl)

/-- Claim C9, counterexample: on an empty store, `search` with `k = 0`
returns the empty result list instead of failing — the empty-index guard
runs before any `k` validation, and the repository code contains no `k`
check of its own. -/
theorem c9_counterexample :
    search encUnit ⟨none, []⟩ "q" 0 = .ok [] ∧
    search encUnit ⟨none, []⟩ "q" 0 ≠ .error .invalidArgument := by
  constructor <;> simp [search]

/-- Claim C9 (amended): only on a store with an index present and a
non-empty document list does `search` with `k ≤ 0` fail (faiss's
`Index::search` rejects non-positive `k`); on an absent or empty index
the guard returns the empty list first, for any `k`. -/
theorem c9_nonpositive_k (enc : String → Vec) (st : Store) (vs : List Vec)
    (q : String) (k : ℤ) (hidx : st.index = some vs)
    (hne : st.documents ≠ []) (hk : k ≤ 0) :
    search enc st q k = .error .invalidArgument := by
  have h0 : ¬(st.documents.length = 0) := by
    simpa [List.length_eq_zero] using hne
  unfold search
  simp [hidx, h0, hk]

/-- Claim C9, witness for the amended theorem at concrete inputs. -/
theorem c9_nonpositive_k_witness :
    search encUnit oneStore "q" 0 = .error .invalidArgument :=
  c9_nonpositive_k encUnit oneStore [[1, 0]] "q" 0 rfl (by simp [oneStore])
    (by norm_num)

end ClimateRAG
